import Mathlib

/-!
Verification development for the voba-portal authentication and
authorization subsystem.

The Rust sources are shallowly embedded: UUIDs become `Nat`, UTC
timestamps become `Int` (Unix seconds), the SQL users table becomes a
`List User`, and each `sqlx` query is the corresponding pure operation
on that list.  Fallible external collaborators (bcrypt, the JWT signer,
the SMTP notifier) are passed in as explicit arguments so that every
control-flow branch of the handlers is representable.
-/

namespace VobaPortal

/-- `UserRole` from src/models/user.rs. -/
inductive UserRole where
  | SuperAdmin
  | Admin
  | Member
  | Treasurer
deriving DecidableEq, Repr

/-- `impl FromStr for UserRole` (src/models/user.rs lines 39-51):
only the four lowercase snake-case strings parse; everything else is `Err`. -/
def UserRole.fromStr : String → Option UserRole
  | "super_admin" => some .SuperAdmin
  | "admin" => some .Admin
  | "member" => some .Member
  | "treasurer" => some .Treasurer
  | _ => none

/-- `User` from src/models/user.rs (UUIDs as `Nat`, timestamps as `Int`). -/
structure User where
  id : Nat
  fullname : String
  email : String
  password_hash : String
  phone : Option String
  dob : Option Int
  photo_url : Option String
  user_role : UserRole
  email_verification_code : Option String
  email_verification_expires_at : Option Int
  is_email_verified : Bool
  is_active : Bool
  created_at : Int
  updated_at : Int
deriving DecidableEq, Repr

/-- `CreateUser` from src/models/user.rs (the `password_hash` field holds
the plaintext password at this point; `User::create` hashes it). -/
structure CreateUser where
  fullname : String
  email : String
  password_hash : String
  user_role : UserRole
  is_active : Bool
deriving DecidableEq, Repr

/-- The users table: one row per user, in insertion order. -/
abbrev Store := List User

/-- `User::find_by_email` — `SELECT * FROM users WHERE email = $1`
(`fetch_optional`: first matching row). -/
def find_by_email (store : Store) (email : String) : Option User :=
  store.find? (fun u => u.email == email)

/-- `User::find_by_id` — `SELECT * FROM users WHERE id = $1`. -/
def find_by_id (store : Store) (id : Nat) : Option User :=
  store.find? (fun u => u.id == id)

/-- `User::find_by_verification_code` —
`SELECT ... FROM users WHERE email_verification_code = $1`. -/
def find_by_verification_code (store : Store) (code : String) : Option User :=
  store.find? (fun u => u.email_verification_code == some code)

/-- An `UPDATE users ... WHERE id = $1` applied to the table:
every row whose id matches is replaced by the updated row. -/
def updateRow (store : Store) (id : Nat) (updated : User) : Store :=
  store.map (fun u => if u.id == id then updated else u)

/-- `AuthenticatedUser` (middleware/auth): the identity/role pair the
token middleware hands to every resource handler. -/
structure AuthenticatedUser where
  user_id : Nat
  user_role : UserRole
deriving DecidableEq, Repr

/-- The ownership fields of `Announcement` (src/models/announcement.rs)
that the handler guards read. -/
structure Announcement where
  id : Nat
  posted_by : Nat
deriving DecidableEq, Repr

/-- The ownership fields of `Contribution` (src/models/contribution.rs). -/
structure Contribution where
  id : Nat
  created_by : Nat
deriving DecidableEq, Repr

/-- The ownership fields of `Photo` (src/models/photo.rs). -/
structure Photo where
  id : Nat
  posted_by : Nat
deriving DecidableEq, Repr

/-- The ownership fields of `Payment` (src/models/payment.rs). -/
structure Payment where
  id : Nat
  user_id : Nat
deriving DecidableEq, Repr

/-- Result of the pre-mutation ownership/role guard that each
update/delete handler runs on the `find_by_id` result: the handler
returns 403 Forbidden, 404 NotFound, or proceeds to the mutation. -/
inductive AccessCheck where
  | forbidden
  | notFound
  | proceed
deriving DecidableEq, Repr

/-- Guard of `announcements::update` (src/handlers/announcements.rs
lines 108-128): deny iff `existing.posted_by != user.user_id`. -/
def announcement_update_access (found : Option Announcement)
    (user : AuthenticatedUser) : AccessCheck :=
  match found with
  | some existing =>
      if existing.posted_by != user.user_id then .forbidden else .proceed
  | none => .notFound

/-- Guard of `announcements::delete` (src/handlers/announcements.rs
lines 172-192): same owner-only test as update. -/
def announcement_delete_access (found : Option Announcement)
    (user : AuthenticatedUser) : AccessCheck :=
  match found with
  | some existing =>
      if existing.posted_by != user.user_id then .forbidden else .proceed
  | none => .notFound

/-- Guard of `contributions::update` (src/handlers/contributions.rs
line 138): deny iff `existing.created_by != user.user_id`. -/
def contribution_update_access (found : Option Contribution)
    (user : AuthenticatedUser) : AccessCheck :=
  match found with
  | some existing =>
      if existing.created_by != user.user_id then .forbidden else .proceed
  | none => .notFound

/-- Guard of `contributions::delete` (src/handlers/contributions.rs
line 204). -/
def contribution_delete_access (found : Option Contribution)
    (user : AuthenticatedUser) : AccessCheck :=
  match found with
  | some existing =>
      if existing.created_by != user.user_id then .forbidden else .proceed
  | none => .notFound

/-- Guard of `photos::update` (src/handlers/photos.rs lines 100-122):
deny iff not owner AND not Admin AND not SuperAdmin. -/
def photo_update_access (found : Option Photo)
    (user : AuthenticatedUser) : AccessCheck :=
  match found with
  | some existing =>
      if existing.posted_by != user.user_id
          && user.user_role != UserRole.Admin
          && user.user_role != UserRole.SuperAdmin then .forbidden
      else .proceed
  | none => .notFound

/-- Guard of `photos::delete` (src/handlers/photos.rs lines 163-185). -/
def photo_delete_access (found : Option Photo)
    (user : AuthenticatedUser) : AccessCheck :=
  match found with
  | some existing =>
      if existing.posted_by != user.user_id
          && user.user_role != UserRole.Admin
          && user.user_role != UserRole.SuperAdmin then .forbidden
      else .proceed
  | none => .notFound

/-- Guard of `payments::update` (src/handlers/payments.rs lines 134-154):
deny iff not owner (`existing.user_id`) AND not Admin AND not SuperAdmin. -/
def payment_update_access (found : Option Payment)
    (user : AuthenticatedUser) : AccessCheck :=
  match found with
  | some existing =>
      if existing.user_id != user.user_id
          && user.user_role != UserRole.Admin
          && user.user_role != UserRole.SuperAdmin then .forbidden
      else .proceed
  | none => .notFound

/-- Guard of `payments::delete` (src/handlers/payments.rs lines 201-221):
the owner is NOT consulted — deny iff the caller role is neither Admin
nor SuperAdmin. -/
def payment_delete_access (found : Option Payment)
    (user : AuthenticatedUser) : AccessCheck :=
  match found with
  | some _ =>
      if user.user_role != UserRole.Admin
          && user.user_role != UserRole.SuperAdmin then .forbidden
      else .proceed
  | none => .notFound

/-- The authorization decision the spec describes (spec §4.6, for
comparison with the guards embedded from the handlers):
`caller_identity == resource_owner_identity OR caller_role ∈ {Admin,
SuperAdmin}`. -/
def can_mutate (caller_identity : Nat) (caller_role : UserRole)
    (resource_owner_identity : Nat) : Bool :=
  caller_identity == resource_owner_identity
    || caller_role == UserRole.Admin
    || caller_role == UserRole.SuperAdmin

/-- `UserError` from src/models/user.rs (payload-free; the `Database`
variant stands for any propagated sqlx error). -/
inductive UserError where
  | notFound
  | notFoundByEmail
  | emailAlreadyExists
  | invalidVerificationCode
  | verificationCodeExpired
  | database
  | passwordHash
deriving DecidableEq, Repr

/-- `bcrypt::BcryptError`: opaque; a malformed stored hash makes
`bcrypt::verify` return this instead of a boolean. -/
inductive BcryptError where
  | err (message : String)
deriving DecidableEq, Repr

/-- The bcrypt `verify(password, hash)` primitive, supplied as an
oracle: it may answer `ok true`/`ok false` or fail on a malformed hash. -/
abbrev BcryptVerify := String → String → Except BcryptError Bool

instance exceptDecidableEq {ε α : Type} [DecidableEq ε] [DecidableEq α] :
    DecidableEq (Except ε α) := fun x y =>
  match x, y with
  | .ok a, .ok b =>
      if h : a = b then .isTrue (by rw [h]) else .isFalse (by simp [h])
  | .error a, .error b =>
      if h : a = b then .isTrue (by rw [h]) else .isFalse (by simp [h])
  | .ok _, .error _ => .isFalse (by simp)
  | .error _, .ok _ => .isFalse (by simp)

/-- Rust `Result::unwrap_or`. -/
def exceptUnwrapOr {ε α : Type} (r : Except ε α) (default : α) : α :=
  match r with
  | .ok a => a
  | .error _ => default

/-- `User::verify_password` (src/models/user.rs lines 244-246):
`verify(password, &self.password_hash)`, error and all. -/
def verify_password (bverify : BcryptVerify) (u : User)
    (password : String) : Except BcryptError Bool :=
  bverify password u.password_hash

/-- `User::authenticate` (src/models/user.rs lines 248-259): look up by
email; accept only when `verify_password(...).unwrap_or(false)` is true;
every other path — unknown email, wrong password, bcrypt error — is
`Ok(None)`. -/
def authenticate (bverify : BcryptVerify) (store : Store)
    (email password : String) : Option User :=
  match find_by_email store email with
  | some user =>
      if exceptUnwrapOr (verify_password bverify user password) false then
        some user
      else
        none
  | none => none

/-- `Claims` from src/models/auth.rs lines 32-38: subject id, email,
expiry and issued-at. There is no role field. -/
structure Claims where
  sub : Nat
  email : String
  exp : Int
  iat : Int
deriving DecidableEq, Repr

/-- `Claims::new` (src/models/auth.rs lines 41-49): `iat = now`,
`exp = now + 24*60*60`. -/
def Claims.new (user_id : Nat) (email : String) (now : Int) : Claims :=
  { sub := user_id, email := email, exp := now + 24 * 60 * 60, iat := now }

/-- Modelled from the spec: `AuthService::generate_token`
(src/services/auth.rs is absent from the sources; only its callers in
src/handlers/auth.rs remain). Per spec §4.3 it encodes a claims payload
for the user and signs it; the payload type is the `Claims` struct of
src/models/auth.rs, whose only constructor `Claims::new` accepts the
id and email of the user. -/
def generate_claims (u : User) (now : Int) : Claims :=
  Claims.new u.id u.email now

/-- `User::create` (src/models/user.rs lines 92-124). The bcrypt hash
result, the random verification code and the fresh UUID are passed in
(`hashResult` is `Err` when `bcrypt::hash` fails, which `create` maps to
`UserError::PasswordHash`). The INSERT appends the new row:
`is_email_verified = false`, the generated code, expiry `now + 24h`. -/
def create (store : Store) (now : Int) (newId : Nat)
    (hashResult : Except BcryptError String) (code : String)
    (user : CreateUser) : Store × Except UserError User :=
  match find_by_email store user.email with
  | some _ => (store, .error .emailAlreadyExists)
  | none =>
      match hashResult with
      | .error _ => (store, .error .passwordHash)
      | .ok hashed_password =>
          let row : User :=
            { id := newId
              fullname := user.fullname
              email := user.email
              password_hash := hashed_password
              phone := none
              dob := none
              photo_url := none
              user_role := user.user_role
              email_verification_code := some code
              email_verification_expires_at := some (now + 24 * 60 * 60)
              is_email_verified := false
              is_active := user.is_active
              created_at := now
              updated_at := now }
          (store ++ [row], .ok row)

/-- The early-return expiry test of `User::verify_email`
(src/models/user.rs lines 165-169): `if let Some(expires_at) = ... {
if Utc::now() > expires_at { return Err(...) } }`. -/
def verification_expired (user : User) (now : Int) : Bool :=
  match user.email_verification_expires_at with
  | some expires_at => decide (now > expires_at)
  | none => false

/-- `User::verify_email` (src/models/user.rs lines 160-191): find by
code (else `InvalidVerificationCode`); if an expiry is stored and
`now > expires_at`, `VerificationCodeExpired` with no write; otherwise
UPDATE the row: verified, code and expiry cleared, `updated_at = now`. -/
def verify_email (store : Store) (now : Int) (verification_code : String) :
    Store × Except UserError User :=
  match find_by_verification_code store verification_code with
  | none => (store, .error .invalidVerificationCode)
  | some user =>
      if verification_expired user now then
        (store, .error .verificationCodeExpired)
      else
        let updated_user : User :=
          { user with
              is_email_verified := true
              email_verification_code := none
              email_verification_expires_at := none
              updated_at := now }
        (updateRow store user.id updated_user, .ok updated_user)

/-- `User::resend_verification_code` (src/models/user.rs lines 193-225):
find by email (else `NotFoundByEmail`); if already verified, return the
row unchanged with no write; otherwise UPDATE with the freshly generated
code (passed in) and expiry `now + 24h`. -/
def resend_verification_code (store : Store) (now : Int) (newCode : String)
    (email : String) : Store × Except UserError User :=
  match find_by_email store email with
  | none => (store, .error .notFoundByEmail)
  | some user =>
      if user.is_email_verified then
        (store, .ok user)
      else
        let updated_user : User :=
          { user with
              email_verification_code := some newCode
              email_verification_expires_at := some (now + 24 * 60 * 60)
              updated_at := now }
        (updateRow store user.id updated_user, .ok updated_user)

/-- `User::toggle_active` (src/models/user.rs lines 261-285): find by id
(else `NotFound`); UPDATE `is_active` to its negation. -/
def toggle_active (store : Store) (now : Int) (user_id : Nat) :
    Store × Except UserError User :=
  match find_by_id store user_id with
  | none => (store, .error .notFound)
  | some user =>
      let updated_user : User :=
        { user with is_active := !user.is_active, updated_at := now }
      (updateRow store user.id updated_user, .ok updated_user)

/-- `UserInfo` from src/models/auth.rs lines 25-30. -/
structure UserInfo where
  id : Nat
  fullname : String
  email : String
deriving DecidableEq, Repr

/-- Role selection in the register handler (src/handlers/auth.rs lines
33-36): `Some(role_str) => role_str.parse().unwrap_or_else(Member)`,
`None => Member`. -/
def requested_role (user_role : Option String) : UserRole :=
  match user_role with
  | some role_str => (UserRole.fromStr role_str).getD .Member
  | none => .Member

/-- `RegisterRequest` as consumed by the register handler. The struct in
src/requests/register.rs declares fullname/email/password/user_role;
handlers/auth.rs line 38 additionally reads `request.is_active`
(`unwrap_or(false)`), so the model carries it as an optional field. -/
structure RegisterRequest where
  fullname : String
  email : String
  password : String
  user_role : Option String
  is_active : Option Bool
deriving DecidableEq, Repr

/-- Outcome of the login handler (src/handlers/auth.rs lines 104-153).
`invalidCredentials` is 401 Unauthorized "Invalid credentials";
`accountInactive` and `emailNotVerified` are the two 403 Forbidden
responses; `tokenFailed` is the 500 from `generate_token`. -/
inductive LoginOutcome where
  | invalidCredentials
  | accountInactive
  | emailNotVerified
  | tokenFailed
  | success (token : Claims) (user : UserInfo)
deriving DecidableEq, Repr

/-- The login handler (src/handlers/auth.rs lines 104-153), assuming
`AuthService::new` succeeded. `AuthService::authenticate_user` is from
the absent src/services/auth.rs; modelled from the spec (§4.4 Login) as
delegating to `User::authenticate`, whose behaviour it must match:
absent email and failed password verification both yield `None`. The
handler then gates on `is_active`, then `is_email_verified`, then
issues the token (`tokenOk` models `generate_token` succeeding). -/
def login (bverify : BcryptVerify) (store : Store) (now : Int)
    (tokenOk : Bool) (email password : String) : LoginOutcome :=
  match authenticate bverify store email password with
  | none => .invalidCredentials
  | some user =>
      if !user.is_active then .accountInactive
      else if !user.is_email_verified then .emailNotVerified
      else if tokenOk then
        .success (generate_claims user now)
          { id := user.id, fullname := user.fullname, email := user.email }
      else .tokenFailed

/-- Outcome of the register handler (src/handlers/auth.rs lines 19-102).
`conflict` is 409 for `EmailAlreadyExists`; `createFailed` is the 500
for any other create error; `tokenFailed` the 500 from
`generate_token`; `created` is 201 with token and public user info. -/
inductive RegisterOutcome where
  | conflict
  | createFailed
  | tokenFailed
  | created (token : Claims) (user : UserInfo)
deriving DecidableEq, Repr

/-- The register handler (src/handlers/auth.rs lines 19-102), assuming
both services constructed. Role: `request.user_role` parsed with
`unwrap_or_else(Member)`, absent means Member (lines 33-36). After a
successful insert the verification email is sent iff the stored code is
present; the send result is DISCARDED apart from logging (lines 68-78),
so the returned outcome does not depend on `sendOk`. The third
component records whether a send was attempted. -/
def register (store : Store) (now : Int) (newId : Nat)
    (hashResult : Except BcryptError String) (code : String)
    (sendOk tokenOk : Bool) (request : RegisterRequest) :
    Store × RegisterOutcome × Bool :=
  let user_role : UserRole := requested_role request.user_role
  let is_active := request.is_active.getD false
  let create_user : CreateUser :=
    { fullname := request.fullname
      email := request.email
      password_hash := request.password
      user_role := user_role
      is_active := is_active }
  match create store now newId hashResult code create_user with
  | (store', .error .emailAlreadyExists) => (store', .conflict, false)
  | (store', .error _) => (store', .createFailed, false)
  | (store', .ok user) =>
      let sendAttempted := user.email_verification_code.isSome
      let _ := sendOk
      if tokenOk then
        (store',
          .created (generate_claims user now)
            { id := user.id, fullname := user.fullname, email := user.email },
          sendAttempted)
      else (store', .tokenFailed, sendAttempted)

/-- Outcome of the resend-verification handler (src/handlers/auth.rs
lines 202-257). `userNotFound` is 404; `resendFailed` the 500 for other
`resend_verification_code` errors; `alreadyVerified` the 400 BadRequest
"Email is already verified"; `sendFailed` the 500 "Failed to send
verification email"; `success` is 200. -/
inductive ResendOutcome where
  | userNotFound
  | resendFailed
  | alreadyVerified
  | sendFailed
  | success
deriving DecidableEq, Repr

/-- The resend-verification handler (src/handlers/auth.rs lines
202-257), assuming `EmailService::new` succeeded. After the model call
it re-checks `is_email_verified` and returns a 400 error (lines
231-235); otherwise it sends the new code iff present, and a send
failure IS surfaced (lines 241-248). The third component records
whether a send was attempted. -/
def resend_verification (store : Store) (now : Int) (newCode : String)
    (sendOk : Bool) (email : String) : Store × ResendOutcome × Bool :=
  match resend_verification_code store now newCode email with
  | (store', .error .notFoundByEmail) => (store', .userNotFound, false)
  | (store', .error _) => (store', .resendFailed, false)
  | (store', .ok user) =>
      if user.is_email_verified then (store', .alreadyVerified, false)
      else
        match user.email_verification_code with
        | some _ =>
            if sendOk then (store', .success, true)
            else (store', .sendFailed, true)
        | none => (store', .success, false)

/-- A concrete unverified user with a live verification code, used to
instantiate the general theorems. -/
def sampleUser : User :=
  { id := 1
    fullname := "Ada"
    email := "ada@x.com"
    password_hash := "h1"
    phone := none
    dob := none
    photo_url := none
    user_role := .Member
    email_verification_code := some "CODE32"
    email_verification_expires_at := some 1000
    is_email_verified := false
    is_active := true
    created_at := 0
    updated_at := 0 }

/-- A concrete verified, active user (no verification code stored). -/
def verifiedUser : User :=
  { id := 2
    fullname := "Vera"
    email := "vera@x.com"
    password_hash := "h2"
    phone := none
    dob := none
    photo_url := none
    user_role := .Member
    email_verification_code := none
    email_verification_expires_at := none
    is_email_verified := true
    is_active := true
    created_at := 0
    updated_at := 0 }

/-- `sampleUser` as rewritten by a successful `verify_email` at time 500. -/
def sampleUserAfterVerify : User :=
  { sampleUser with
      is_email_verified := true
      email_verification_code := none
      email_verification_expires_at := none
      updated_at := 500 }

/-- C1: the claim asserts one uniform rule (`can_mutate`) across all
four resources; the code refutes it. A non-owner Admin is denied on
announcement update although `can_mutate` allows it, and a Member who
owns a payment is denied its deletion although `can_mutate` allows it. -/
theorem mutation_access_not_uniform :
    announcement_update_access (some { id := 10, posted_by := 2 })
        { user_id := 1, user_role := .Admin } = .forbidden
    ∧ can_mutate 1 .Admin 2 = true
    ∧ payment_delete_access (some { id := 11, user_id := 5 })
        { user_id := 5, user_role := .Member } = .forbidden
    ∧ can_mutate 5 .Member 5 = true := by
  decide

/-- C1 (amended): the per-resource mutation guards. Photos
(update/delete) and payment update decide exactly by `can_mutate`;
announcements and contributions (update/delete) are owner-only with the
caller role ignored; payment delete requires Admin/SuperAdmin with
ownership ignored. On a found resource every guard answers only
`proceed` or `forbidden` (the 403 Forbidden outcome), never a generic
failure. -/
theorem mutation_access_per_resource (a : Announcement) (c : Contribution)
    (p : Photo) (pay : Payment) (u : AuthenticatedUser) :
    (announcement_update_access (some a) u = .proceed ↔ a.posted_by = u.user_id)
    ∧ (announcement_delete_access (some a) u = .proceed ↔ a.posted_by = u.user_id)
    ∧ (contribution_update_access (some c) u = .proceed ↔ c.created_by = u.user_id)
    ∧ (contribution_delete_access (some c) u = .proceed ↔ c.created_by = u.user_id)
    ∧ (photo_update_access (some p) u = .proceed
        ↔ can_mutate u.user_id u.user_role p.posted_by = true)
    ∧ (photo_delete_access (some p) u = .proceed
        ↔ can_mutate u.user_id u.user_role p.posted_by = true)
    ∧ (payment_update_access (some pay) u = .proceed
        ↔ can_mutate u.user_id u.user_role pay.user_id = true)
    ∧ (payment_delete_access (some pay) u = .proceed
        ↔ (u.user_role = .Admin ∨ u.user_role = .SuperAdmin))
    ∧ (announcement_update_access (some a) u = .proceed
        ∨ announcement_update_access (some a) u = .forbidden)
    ∧ (announcement_delete_access (some a) u = .proceed
        ∨ announcement_delete_access (some a) u = .forbidden)
    ∧ (contribution_update_access (some c) u = .proceed
        ∨ contribution_update_access (some c) u = .forbidden)
    ∧ (contribution_delete_access (some c) u = .proceed
        ∨ contribution_delete_access (some c) u = .forbidden)
    ∧ (photo_update_access (some p) u = .proceed
        ∨ photo_update_access (some p) u = .forbidden)
    ∧ (photo_delete_access (some p) u = .proceed
        ∨ photo_delete_access (some p) u = .forbidden)
    ∧ (payment_update_access (some pay) u = .proceed
        ∨ payment_update_access (some pay) u = .forbidden)
    ∧ (payment_delete_access (some pay) u = .proceed
        ∨ payment_delete_access (some pay) u = .forbidden) := by
  obtain ⟨uid, urole⟩ := u
  by_cases h1 : a.posted_by = uid <;>
    by_cases h2 : c.created_by = uid <;>
      by_cases h3 : p.posted_by = uid <;>
        by_cases h4 : pay.user_id = uid <;>
          cases urole <;>
            simp_all [announcement_update_access, announcement_delete_access,
              contribution_update_access, contribution_delete_access,
              photo_update_access, photo_delete_access,
              payment_update_access, payment_delete_access, can_mutate] <;>
              omega

/-- C2: the claim asserts the token claims contain the role of the user; the
`Claims` payload has no role field and `Claims::new` accepts only id and
email, so the role cannot be recovered from the generated claims: two
users differing only in role yield identical claims. -/
theorem claims_do_not_carry_role :
    ¬ ∃ f : Claims → UserRole,
        ∀ (u : User) (now : Int), f (generate_claims u now) = u.user_role := by
  rintro ⟨f, hf⟩
  have h1 := hf { sampleUser with user_role := .Admin } 0
  have h2 := hf { sampleUser with user_role := .Member } 0
  simp only [generate_claims, Claims.new, sampleUser] at h1 h2
  exact UserRole.noConfusion (h1.symm.trans h2)

/-- C2 (amended): the generated claims carry the identity and
email, with `iat` equal to the time of issue and `exp` equal to
`iat + 86400` (24 hours); they do not carry the role. -/
theorem generate_claims_spec (u : User) (now : Int) :
    (generate_claims u now).sub = u.id
    ∧ (generate_claims u now).email = u.email
    ∧ (generate_claims u now).iat = now
    ∧ (generate_claims u now).exp = (generate_claims u now).iat + 86400 := by
  refine ⟨rfl, rfl, rfl, ?_⟩
  show now + 24 * 60 * 60 = now + 86400
  norm_num

/-- C10: role assignment in register. Exactly the four strings
"super_admin", "admin", "member", "treasurer" parse to a role — so an
unauthenticated registration can request `admin` or `super_admin` and
receive that role on the created account — while any other string and
an absent role silently become Member instead of a validation error.
The final conjunct shows the created row stores `requested_role`. -/
theorem register_role_assignment :
    UserRole.fromStr "super_admin" = some .SuperAdmin
    ∧ UserRole.fromStr "admin" = some .Admin
    ∧ UserRole.fromStr "member" = some .Member
    ∧ UserRole.fromStr "treasurer" = some .Treasurer
    ∧ (∀ s : String, UserRole.fromStr s ≠ none →
        s = "super_admin" ∨ s = "admin" ∨ s = "member" ∨ s = "treasurer")
    ∧ (∀ s : String, UserRole.fromStr s = none →
        requested_role (some s) = .Member)
    ∧ requested_role none = .Member
    ∧ (∀ (store : Store) (now : Int) (newId : Nat) (hp code : String)
        (sendOk tokenOk : Bool) (request : RegisterRequest),
        find_by_email store request.email = none →
        ∃ row : User,
          (register store now newId (.ok hp) code sendOk tokenOk request).1 =
              store ++ [row]
            ∧ row.user_role = requested_role request.user_role
            ∧ row.email = request.email) := by
  refine ⟨rfl, rfl, rfl, rfl, ?_, ?_, rfl, ?_⟩
  · intro s h
    unfold UserRole.fromStr at h
    split at h <;> simp_all
  · intro s h
    simp [requested_role, h]
  · intro store now newId hp code sendOk tokenOk request hfind
    refine ⟨?_, ?_⟩
    · exact
        { id := newId
          fullname := request.fullname
          email := request.email
          password_hash := hp
          phone := none
          dob := none
          photo_url := none
          user_role := requested_role request.user_role
          email_verification_code := some code
          email_verification_expires_at := some (now + 24 * 60 * 60)
          is_email_verified := false
          is_active := request.is_active.getD false
          created_at := now
          updated_at := now }
    · simp only [register, create, hfind]
      cases tokenOk <;> simp

/-- C10 witness: registering with requested role "admin" on an empty
store yields a stored row whose role is Admin. -/
theorem register_role_assignment_witness :
    find_by_email [] "eve@x.com" = none
    ∧ ∃ row : User,
        (register [] 0 7 (.ok "hp") "C" true true
            { fullname := "Eve", email := "eve@x.com", password := "pw",
              user_role := some "admin", is_active := none }).1 = [] ++ [row]
          ∧ row.user_role = requested_role (some "admin")
          ∧ row.email = "eve@x.com" :=
  ⟨rfl,
    register_role_assignment.2.2.2.2.2.2.2 [] 0 7 "hp" "C" true true
      { fullname := "Eve", email := "eve@x.com", password := "pw",
        user_role := some "admin", is_active := none } rfl⟩

/-- C8: `authenticate` fails closed. When password verification errors
(e.g. a malformed stored hash), the result is `None` — the
InvalidCredentials path — and a user is only ever returned when
verification answered `Ok(true)`; the bcrypt error branch is never
surfaced to the caller. -/
theorem authenticate_fails_closed (bverify : BcryptVerify) (store : Store)
    (email password : String) :
    (∀ (u : User) (e : BcryptError),
      find_by_email store email = some u →
      verify_password bverify u password = .error e →
      authenticate bverify store email password = none)
    ∧ (∀ u : User,
        authenticate bverify store email password = some u →
        verify_password bverify u password = .ok true) := by
  constructor
  · intro u e hfind herr
    simp [authenticate, hfind, exceptUnwrapOr, herr]
  · intro u hauth
    unfold authenticate at hauth
    cases hfind : find_by_email store email with
    | none => simp [hfind] at hauth
    | some v =>
        rw [hfind] at hauth
        have hauth' :
            (if exceptUnwrapOr (verify_password bverify v password) false = true
              then some v else none) = some u := hauth
        by_cases hv :
            exceptUnwrapOr (verify_password bverify v password) false = true
        · rw [if_pos hv] at hauth'
          cases hauth'
          cases hres : verify_password bverify u password with
          | ok b =>
              simp only [exceptUnwrapOr.eq_def, hres] at hv
              simp only [hv]
          | error e => simp only [exceptUnwrapOr.eq_def, hres] at hv; exact absurd hv (by simp)
        · rw [if_neg hv] at hauth'
          exact absurd hauth' (by simp)

/-- C8 witness: a bcrypt oracle that always errors (malformed stored
hash) makes authentication return `None` for an existing user. -/
theorem authenticate_fails_closed_witness :
    find_by_email [sampleUser] "ada@x.com" = some sampleUser
    ∧ verify_password (fun _ _ => .error (.err "bad hash")) sampleUser "pw"
        = .error (.err "bad hash")
    ∧ authenticate (fun _ _ => .error (.err "bad hash")) [sampleUser]
        "ada@x.com" "pw" = none :=
  ⟨by decide, rfl,
    (authenticate_fails_closed (fun _ _ => .error (.err "bad hash"))
        [sampleUser] "ada@x.com" "pw").1
      sampleUser (.err "bad hash") (by decide) rfl⟩

/-- C3: login outcomes. Unknown email and failed password verification
both produce the single `invalidCredentials` outcome (literally the same
constructor, hence indistinguishable in the response); a matching
password on an inactive account gives `accountInactive`; active but
unverified gives `emailNotVerified`; otherwise a token and the public
user info are returned. -/
theorem login_cases (bverify : BcryptVerify) (store : Store) (now : Int)
    (tokenOk : Bool) (email password : String) :
    (find_by_email store email = none →
      login bverify store now tokenOk email password = .invalidCredentials)
    ∧ (∀ u : User, find_by_email store email = some u →
        exceptUnwrapOr (verify_password bverify u password) false = false →
        login bverify store now tokenOk email password = .invalidCredentials)
    ∧ (∀ u : User, find_by_email store email = some u →
        exceptUnwrapOr (verify_password bverify u password) false = true →
        u.is_active = false →
        login bverify store now tokenOk email password = .accountInactive)
    ∧ (∀ u : User, find_by_email store email = some u →
        exceptUnwrapOr (verify_password bverify u password) false = true →
        u.is_active = true → u.is_email_verified = false →
        login bverify store now tokenOk email password = .emailNotVerified)
    ∧ (∀ u : User, find_by_email store email = some u →
        exceptUnwrapOr (verify_password bverify u password) false = true →
        u.is_active = true → u.is_email_verified = true → tokenOk = true →
        login bverify store now tokenOk email password =
          .success (generate_claims u now)
            { id := u.id, fullname := u.fullname, email := u.email }) := by
  refine ⟨?_, ?_, ?_, ?_, ?_⟩
  · intro hfind
    simp [login, authenticate, hfind]
  · intro u hfind hverify
    simp [login, authenticate, hfind, hverify]
  · intro u hfind hverify hactive
    simp [login, authenticate, hfind, hverify, hactive]
  · intro u hfind hverify hactive hunverified
    simp [login, authenticate, hfind, hverify, hactive, hunverified]
  · intro u hfind hverify hactive hverified htok
    simp [login, authenticate, hfind, hverify, hactive, hverified, htok]

/-- C3 witness: a verified active user with a correct password logs in
successfully; the other branches are exercised at concrete inputs
through the hypotheses of the same theorem. -/
theorem login_cases_witness :
    find_by_email [verifiedUser] "vera@x.com" = some verifiedUser
    ∧ exceptUnwrapOr
        (verify_password (fun _ _ => .ok true) verifiedUser "pw") false = true
    ∧ verifiedUser.is_active = true
    ∧ verifiedUser.is_email_verified = true
    ∧ login (fun _ _ => .ok true) [verifiedUser] 100 true "vera@x.com" "pw" =
        .success (generate_claims verifiedUser 100)
          { id := verifiedUser.id, fullname := verifiedUser.fullname,
            email := verifiedUser.email } :=
  ⟨by decide, rfl, rfl, rfl,
    (login_cases (fun _ _ => .ok true) [verifiedUser] 100 true
        "vera@x.com" "pw").2.2.2.2
      verifiedUser (by decide) rfl rfl rfl rfl⟩

/-- C5: an expired verification code is rejected with
`VerificationCodeExpired` and the store is returned untouched — the
user stays unverified and keeps the same code and expiry (rejected but
present, neither cleared nor revived). -/
theorem verify_email_expired (store : Store) (now : Int) (code : String)
    (u : User) (expires : Int)
    (hfind : find_by_verification_code store code = some u)
    (hexp : u.email_verification_expires_at = some expires)
    (hlate : now > expires) :
    verify_email store now code = (store, .error .verificationCodeExpired) := by
  simp [verify_email, hfind, verification_expired, hexp, hlate]

/-- C5 witness: the code of `sampleUser` expires at 1000; at time 2000 the
code is rejected as expired and the store (code included) is unchanged. -/
theorem verify_email_expired_witness :
    find_by_verification_code [sampleUser] "CODE32" = some sampleUser
    ∧ sampleUser.email_verification_expires_at = some 1000
    ∧ (2000 : Int) > 1000
    ∧ verify_email [sampleUser] 2000 "CODE32" =
        ([sampleUser], .error .verificationCodeExpired) :=
  ⟨by decide, rfl, by decide,
    verify_email_expired [sampleUser] 2000 "CODE32" sampleUser 1000
      (by decide) rfl (by decide)⟩

/-- After the UPDATE that clears a verification code, no row of the
table carries that code any more, provided the cleared user was the only
holder beforehand. -/
theorem find_code_none_after_update (store : Store) (user updated : User)
    (code : String)
    (hupd : updated.email_verification_code = none)
    (huniq : ∀ v ∈ store, v.email_verification_code = some code →
        v.id = user.id) :
    find_by_verification_code (updateRow store user.id updated) code = none := by
  apply List.find?_eq_none.mpr
  intro x hx
  rw [updateRow, List.mem_map] at hx
  obtain ⟨w, hw, hwx⟩ := hx
  by_cases hid : w.id == user.id
  · rw [if_pos hid] at hwx
    subst hwx
    simp [hupd]
  · rw [if_neg hid] at hwx
    subst hwx
    intro hcontra
    rw [beq_iff_eq] at hcontra
    exact hid (by rw [beq_iff_eq]; exact huniq w hw hcontra)

/-- C4: a verification code is consumed exactly once. A successful
`verify_email` marks the user verified, clears the code and the expiry,
and — when that user was the sole holder of the code — running
`verify_email` again with the same code on the resulting store fails
with `InvalidVerificationCode` and changes nothing. -/
theorem verify_email_single_use (store : Store) (now now2 : Int)
    (code : String) (store' : Store) (u' : User)
    (h : verify_email store now code = (store', .ok u'))
    (huniq : ∀ v ∈ store, v.email_verification_code = some code →
        v.id = u'.id) :
    u'.is_email_verified = true
    ∧ u'.email_verification_code = none
    ∧ u'.email_verification_expires_at = none
    ∧ verify_email store' now2 code =
        (store', .error .invalidVerificationCode) := by
  unfold verify_email at h
  split at h
  · exact absurd h (by simp)
  · rename_i user hfind
    split at h
    · exact absurd h (by simp)
    · have hs := congrArg Prod.fst h
      have hu := congrArg Prod.snd h
      simp only at hs hu
      injection hu with hu
      subst hu
      subst hs
      refine ⟨rfl, rfl, rfl, ?_⟩
      unfold verify_email
      rw [find_code_none_after_update store user _ code rfl
        (fun v hv hc => huniq v hv hc)]

/-- C4 witness: verifying the code of `sampleUser` at time 500 succeeds,
clears the code, and a second attempt with the same code at time 600 is
rejected as invalid. -/
theorem verify_email_single_use_witness :
    verify_email [sampleUser] 500 "CODE32" =
        ([sampleUserAfterVerify], .ok sampleUserAfterVerify)
    ∧ (∀ v ∈ [sampleUser], v.email_verification_code = some "CODE32" →
        v.id = sampleUserAfterVerify.id)
    ∧ (sampleUserAfterVerify.is_email_verified = true
        ∧ sampleUserAfterVerify.email_verification_code = none
        ∧ sampleUserAfterVerify.email_verification_expires_at = none
        ∧ verify_email [sampleUserAfterVerify] 600 "CODE32" =
            ([sampleUserAfterVerify], .error .invalidVerificationCode)) :=
  ⟨by decide, by decide,
    verify_email_single_use [sampleUser] 500 600 "CODE32"
      [sampleUserAfterVerify] sampleUserAfterVerify (by decide) (by decide)⟩

/-- C6: the claim says resending to an already-verified user returns
success; in the code the handler answers the 400 BadRequest "Email is
already verified" outcome instead (src/handlers/auth.rs lines 231-235)
— concretely, for a stored verified user the result is
`alreadyVerified`, which is not `success`. -/
theorem resend_already_verified_not_success :
    resend_verification [verifiedUser] 100 "NEWCODE" true "vera@x.com" =
        ([verifiedUser], .alreadyVerified, false)
    ∧ ResendOutcome.alreadyVerified ≠ ResendOutcome.success := by
  decide

/-- C6 (amended): for an already-verified user, ResendVerification
generates no new code, leaves the store unchanged and attempts no
email, but responds with the 400 `alreadyVerified` error rather than
success. -/
theorem resend_already_verified (store : Store) (now : Int)
    (newCode email : String) (sendOk : Bool) (u : User)
    (hfind : find_by_email store email = some u)
    (hver : u.is_email_verified = true) :
    resend_verification store now newCode sendOk email =
        (store, .alreadyVerified, false) := by
  simp [resend_verification, resend_verification_code, hfind, hver]

/-- C6 witness: the amended behaviour at a concrete verified user. -/
theorem resend_already_verified_witness :
    find_by_email [verifiedUser] "vera@x.com" = some verifiedUser
    ∧ verifiedUser.is_email_verified = true
    ∧ resend_verification [verifiedUser] 100 "NEWCODE" false "vera@x.com" =
        ([verifiedUser], .alreadyVerified, false) :=
  ⟨by decide, rfl,
    resend_already_verified [verifiedUser] 100 "NEWCODE" "vera@x.com" false
      verifiedUser (by decide) rfl⟩

/-- The auth-flow store invariant: a verified user never carries a
verification code. -/
def VerifiedNoCode (store : Store) : Prop :=
  ∀ u ∈ store, u.is_email_verified = true → u.email_verification_code = none

instance (store : Store) : Decidable (VerifiedNoCode store) := by
  unfold VerifiedNoCode
  infer_instance

/-- C7: every auth-flow operation — create, verify_email,
resend_verification_code, toggle_active — preserves the invariant that
`is_email_verified = true` implies `email_verification_code = None` in
every stored user record. -/
theorem auth_ops_preserve_verified_no_code (store : Store) (now : Int)
    (newId : Nat) (hashResult : Except BcryptError String)
    (code vcode newCode email : String) (cu : CreateUser) (uid : Nat)
    (hinv : VerifiedNoCode store) :
    VerifiedNoCode (create store now newId hashResult code cu).1
    ∧ VerifiedNoCode (verify_email store now vcode).1
    ∧ VerifiedNoCode (resend_verification_code store now newCode email).1
    ∧ VerifiedNoCode (toggle_active store now uid).1 := by
  refine ⟨?_, ?_, ?_, ?_⟩
  · unfold create
    split
    · exact hinv
    · split
      · exact hinv
      · intro u hu hver
        rcases List.mem_append.mp hu with hmem | hmem
        · exact hinv u hmem hver
        · rw [List.mem_singleton] at hmem
          subst hmem
          exact absurd hver (by simp)
  · unfold verify_email
    split
    · exact hinv
    · rename_i user hfind
      split
      · exact hinv
      · intro u hu hver
        simp only [updateRow, List.mem_map] at hu
        obtain ⟨w, hw, hwu⟩ := hu
        by_cases hid : w.id == user.id
        · rw [if_pos hid] at hwu; subst hwu; rfl
        · rw [if_neg hid] at hwu; subst hwu; exact hinv w hw hver
  · unfold resend_verification_code
    split
    · exact hinv
    · rename_i user hfind
      split
      · exact hinv
      · rename_i hunver
        intro u hu hver
        simp only [updateRow, List.mem_map] at hu
        obtain ⟨w, hw, hwu⟩ := hu
        by_cases hid : w.id == user.id
        · rw [if_pos hid] at hwu
          subst hwu
          exact absurd hver (by simpa using hunver)
        · rw [if_neg hid] at hwu; subst hwu; exact hinv w hw hver
  · unfold toggle_active
    split
    · exact hinv
    · rename_i user hfind
      intro u hu hver
      simp only [updateRow, List.mem_map] at hu
      obtain ⟨w, hw, hwu⟩ := hu
      by_cases hid : w.id == user.id
      · rw [if_pos hid] at hwu
        subst hwu
        exact hinv user (List.mem_of_find?_eq_some hfind) hver
      · rw [if_neg hid] at hwu; subst hwu; exact hinv w hw hver

/-- C7 witness: the invariant holds of a concrete two-user store and is
preserved by all four operations applied to it. -/
theorem auth_ops_preserve_verified_no_code_witness :
    VerifiedNoCode [sampleUser, verifiedUser]
    ∧ (VerifiedNoCode
        (create [sampleUser, verifiedUser] 0 9 (.ok "hp") "C9"
          { fullname := "New", email := "new@x.com", password_hash := "pw",
            user_role := .Member, is_active := true }).1
      ∧ VerifiedNoCode (verify_email [sampleUser, verifiedUser] 0 "CODE32").1
      ∧ VerifiedNoCode
          (resend_verification_code [sampleUser, verifiedUser] 0 "C2"
            "ada@x.com").1
      ∧ VerifiedNoCode (toggle_active [sampleUser, verifiedUser] 0 2).1) :=
  ⟨by decide,
    auth_ops_preserve_verified_no_code [sampleUser, verifiedUser] 0 9
      (.ok "hp") "C9" "CODE32" "C2" "ada@x.com"
      { fullname := "New", email := "new@x.com", password_hash := "pw",
        user_role := .Member, is_active := true } 2
      (by decide)⟩

/-- C9: notifier-failure policy. The registration outcome (and resulting
store) is entirely independent of whether the verification email could
be sent — the send result is only logged — and with a fresh email it
returns the created user and token even under a failing notifier; by
contrast, ResendVerification for a stored unverified user under a
failing notifier fails with the dedicated send-failure error (the 500
"Failed to send verification email" — the NotificationFailed outcome). -/
theorem notifier_failure_policy (store : Store) (now : Int) (newId : Nat)
    (hp code newCode email : String) (tokenOk : Bool)
    (request : RegisterRequest) :
    (∀ (sendOk1 sendOk2 : Bool) (hashResult : Except BcryptError String),
      register store now newId hashResult code sendOk1 tokenOk request =
        register store now newId hashResult code sendOk2 tokenOk request)
    ∧ (find_by_email store request.email = none →
        ∃ row : User,
          register store now newId (.ok hp) code false true request =
            (store ++ [row],
              .created (generate_claims row now)
                { id := row.id, fullname := row.fullname, email := row.email },
              true))
    ∧ (∀ u : User, find_by_email store email = some u →
        u.is_email_verified = false →
        (resend_verification store now newCode false email).2.1 =
          .sendFailed) := by
  refine ⟨?_, ?_, ?_⟩
  · intro sendOk1 sendOk2 hashResult
    rfl
  · intro hfind
    refine ⟨?_, ?_⟩
    · exact
        { id := newId
          fullname := request.fullname
          email := request.email
          password_hash := hp
          phone := none
          dob := none
          photo_url := none
          user_role := requested_role request.user_role
          email_verification_code := some code
          email_verification_expires_at := some (now + 24 * 60 * 60)
          is_email_verified := false
          is_active := request.is_active.getD false
          created_at := now
          updated_at := now }
    · simp [register, create, hfind]
  · intro u hfind hunver
    simp [resend_verification, resend_verification_code, hfind, hunver]

/-- C9 witness: a failing notifier (`sendOk = false`) does not affect a
fresh registration, while resend for the unverified `sampleUser` under
the same failing notifier answers the send-failure error. -/
theorem notifier_failure_policy_witness :
    find_by_email [sampleUser] "new@x.com" = none
    ∧ (∃ row : User,
        register [sampleUser] 0 7 (.ok "hp") "C7" false true
            { fullname := "New", email := "new@x.com", password := "pw",
              user_role := none, is_active := none } =
          ([sampleUser] ++ [row],
            .created (generate_claims row 0)
              { id := row.id, fullname := row.fullname, email := row.email },
            true))
    ∧ find_by_email [sampleUser] "ada@x.com" = some sampleUser
    ∧ sampleUser.is_email_verified = false
    ∧ (resend_verification [sampleUser] 0 "NEW" false "ada@x.com").2.1 =
        .sendFailed :=
  ⟨by decide,
    (notifier_failure_policy [sampleUser] 0 7 "hp" "C7" "NEW" "ada@x.com" true
        { fullname := "New", email := "new@x.com", password := "pw",
          user_role := none, is_active := none }).2.1 (by decide),
    by decide, rfl,
    (notifier_failure_policy [sampleUser] 0 7 "hp" "C7" "NEW" "ada@x.com" true
        { fullname := "New", email := "new@x.com", password := "pw",
          user_role := none, is_active := none }).2.2
      sampleUser (by decide) rfl⟩

end VobaPortal
